import Mathlib

/-
  Verification development for the EcoRoute Bangalore trip planner.

  The Python sources are shallowly embedded over ℚ (Python floats are
  modelled as exact rationals; `round(x, n)` is modelled with round-half-to-even,
  which is the rounding Python uses).  Each definition mirrors one function of
  the repository; file and line references are given in the doc comments.
-/

namespace EcoRoute

/-- Transport modes of `utils/constants.py` (`TransportMode`: car, metro, bus,
bike, walk). -/
inductive TransportMode
  | car
  | metro
  | bus
  | bike
  | walk
deriving DecidableEq, Repr

/-- String value of a mode (`TransportMode(str, Enum)` member values). -/
def modeValue : TransportMode → String
  | .car => "car"
  | .metro => "metro"
  | .bus => "bus"
  | .bike => "bike"
  | .walk => "walk"

/-- Round-half-to-even on rationals; models the rounding of the Python builtin
`round`. -/
def roundHalfEven (q : ℚ) : ℤ :=
  if q - (⌊q⌋ : ℚ) < 1/2 then ⌊q⌋
  else if 1/2 < q - (⌊q⌋ : ℚ) then ⌊q⌋ + 1
  else if ⌊q⌋ % 2 = 0 then ⌊q⌋ else ⌊q⌋ + 1

/-- Model of the Python builtin `round(q, prec)`. -/
def roundTo (prec : ℕ) (q : ℚ) : ℚ :=
  (roundHalfEven (q * (10 : ℚ) ^ prec) : ℚ) / (10 : ℚ) ^ prec

/-- Model of Python fixed-point string formatting `f"{q:.precf}"`. -/
def decimalString (prec : ℕ) (q : ℚ) : String :=
  let scaled := roundHalfEven (q * (10 : ℚ) ^ prec)
  let sign := if scaled < 0 then "-" else ""
  let n := scaled.natAbs
  if prec = 0 then sign ++ toString n
  else
    sign ++ toString (n / 10 ^ prec) ++ "." ++ (toString (n % 10 ^ prec + 10 ^ prec)).drop 1

/-! ## Emission model — `calculators/emission_calculator.py` -/

/-- Emission factors dataclass (`EmissionFactors`). -/
structure EmissionFactors where
  petrol : ℚ
  diesel : ℚ
  cng : ℚ
  electricity : ℚ
  hybrid : ℚ
deriving DecidableEq, Repr

/-- Default factor values of `EmissionFactors`. -/
def factors : EmissionFactors :=
  { petrol := 2.31, diesel := 2.68, cng := 2.75, electricity := 0.82, hybrid := 1.55 }

/-- Result dictionary of the emission sub-models: the common keys `co2_kg`,
`co2_per_km`, `method`, plus the method-specific informational entries. -/
structure EmissionResult where
  co2_kg : ℚ
  co2_per_km : ℚ
  method : String
  extra : List (String × ℚ)
deriving DecidableEq, Repr

/-- Embeds `EmissionCalculator._calculate_car_emissions` (default fuel type petrol). -/
def calculate_car_emissions (d : ℚ) (vehicleType : Option String) : EmissionResult :=
  if vehicleType = some "electric" then
    let energyEfficiency : ℚ := 0.15
    { co2_kg := d * energyEfficiency * factors.electricity,
      co2_per_km := energyEfficiency * factors.electricity,
      method := "electric",
      extra := [("energy_kwh", d * energyEfficiency)] }
  else
    let fuelEfficiency : ℚ :=
      if vehicleType = some "diesel" then 18
      else if vehicleType = some "cng" then 20
      else if vehicleType = some "hybrid" then 22
      else 15
    let co2PerLiter : ℚ :=
      if vehicleType = some "diesel" then factors.diesel
      else if vehicleType = some "cng" then factors.cng
      else if vehicleType = some "hybrid" then factors.hybrid
      else factors.petrol
    let fuelConsumed := d / fuelEfficiency
    { co2_kg := fuelConsumed * co2PerLiter,
      co2_per_km := co2PerLiter / fuelEfficiency,
      method := match vehicleType with
        | some s => if s = "" then "petrol" else s
        | none => "petrol",
      extra := [("fuel_liters", fuelConsumed), ("fuel_efficiency", fuelEfficiency)] }

/-- Embeds `EmissionCalculator._calculate_metro_emissions`: 0.15 kWh per passenger-km
times the grid factor 0.82 kg CO2 per kWh. -/
def calculate_metro_emissions (d : ℚ) : EmissionResult :=
  let energyPerKm : ℚ := 0.15
  { co2_kg := d * energyPerKm * factors.electricity,
    co2_per_km := energyPerKm * factors.electricity,
    method := "electric_metro",
    extra := [("energy_kwh", d * energyPerKm)] }

/-- Embeds `EmissionCalculator._calculate_bus_emissions`: 4 km/L diesel fleet
efficiency over 40 passengers. -/
def calculate_bus_emissions (d : ℚ) : EmissionResult :=
  let fuelEfficiency : ℚ := 4
  let averageOccupancy : ℚ := 40
  let fuelPerPassengerKm := 1 / (fuelEfficiency * averageOccupancy)
  { co2_kg := d * fuelPerPassengerKm * factors.diesel,
    co2_per_km := fuelPerPassengerKm * factors.diesel,
    method := "diesel_bus",
    extra := [("fuel_per_passenger_liter", d * fuelPerPassengerKm)] }

/-- Embeds `EmissionCalculator._calculate_bike_emissions`: food-energy emissions,
35 cal/km times 0.001 kg CO2 per calorie. -/
def calculate_bike_emissions (d : ℚ) : EmissionResult :=
  let caloriesPerKm : ℚ := 35
  let foodEmissionsPerCalorie : ℚ := 0.001
  { co2_kg := d * caloriesPerKm * foodEmissionsPerCalorie,
    co2_per_km := caloriesPerKm * foodEmissionsPerCalorie,
    method := "human_power",
    extra := [("calories_burned", d * caloriesPerKm)] }

/-- Embeds `EmissionCalculator._calculate_walk_emissions`: 70 cal/km times 0.001. -/
def calculate_walk_emissions (d : ℚ) : EmissionResult :=
  let caloriesPerKm : ℚ := 70
  let foodEmissionsPerCalorie : ℚ := 0.001
  { co2_kg := d * caloriesPerKm * foodEmissionsPerCalorie,
    co2_per_km := caloriesPerKm * foodEmissionsPerCalorie,
    method := "human_power",
    extra := [("calories_burned", d * caloriesPerKm)] }

/-- Embeds `EmissionCalculator.calculate_co2_emissions`: dispatch by mode.  The final
`else` of the source is unreachable because the five-member enumeration is
matched exhaustively. -/
def calculate_co2_emissions (m : TransportMode) (d : ℚ) (vehicleType : Option String) :
    EmissionResult :=
  match m with
  | .car => calculate_car_emissions d vehicleType
  | .metro => calculate_metro_emissions d
  | .bus => calculate_bus_emissions d
  | .bike => calculate_bike_emissions d
  | .walk => calculate_walk_emissions d

/-- Equivalence statements of `calculate_equivalent_impact` (fixed linear
constants rendered with Python fixed-point formatting). -/
structure Equivalents where
  tree_months : String
  smartphone_charges : String
  km_driven : String
  lightbulb_hours : String
  water_bottles : String
deriving DecidableEq, Repr

/-- Embeds `EmissionCalculator.calculate_equivalent_impact`. -/
def calculate_equivalent_impact (co2 : ℚ) : Equivalents :=
  { tree_months := "A tree absorbs this much CO2 in " ++ decimalString 1 (co2 / 21) ++ " months",
    smartphone_charges := "Equivalent to " ++ decimalString 0 (co2 * 1000) ++ " smartphone charges",
    km_driven := "Same as driving a car for " ++ decimalString 1 (co2 * 8.33) ++ " km",
    lightbulb_hours := "Powering a LED bulb for " ++ decimalString 0 (co2 * 12) ++ " hours",
    water_bottles := "Manufacturing " ++ decimalString 0 (co2 * 20) ++ " plastic water bottles" }

/-- Health-benefit record of `calculate_health_benefits`. -/
structure HealthBenefits where
  calories_burned : ℚ
  health_score : ℚ
  cardiovascular_benefit : String
  air_pollution_exposure : String
deriving DecidableEq, Repr

/-- Embeds `EmissionCalculator.calculate_health_benefits`. -/
def calculate_health_benefits (m : TransportMode) (d : ℚ) : HealthBenefits :=
  match m with
  | .bike =>
      { calories_burned := d * 35, health_score := d * 10,
        cardiovascular_benefit := "High", air_pollution_exposure := "Low" }
  | .walk =>
      { calories_burned := d * 70, health_score := d * 15,
        cardiovascular_benefit := "High", air_pollution_exposure := "Low" }
  | _ =>
      { calories_burned := 0, health_score := 0,
        cardiovascular_benefit := "Low", air_pollution_exposure := "High" }

/-! ## Cost model — `calculators/cost_calculator.py` -/

/-- Embeds `Settings.METRO_BASE_FARE` (`config/settings.py`). -/
def METRO_BASE_FARE : ℚ := 10

/-- Embeds `Settings.METRO_PER_KM_FARE` (`config/settings.py`). -/
def METRO_PER_KM_FARE : ℚ := 2.5

/-- Embeds `CostCalculator._estimate_parking_cost`: 30 INR per hour for peak or
unspecified time of day, otherwise 20; minimum one hour, hours rounded up. -/
def estimate_parking_cost (durationMin : ℚ) (timeOfDay : Option String) : ℚ :=
  let ratePerHour : ℚ := if timeOfDay = some "peak" ∨ timeOfDay = none then 30 else 20
  let durationHours : ℤ := max 1 ⌈durationMin / 60⌉
  (durationHours : ℚ) * ratePerHour

/-- Embeds `CostCalculator._estimate_toll_charges`: flat 50 INR above 20 km, else 0. -/
def estimate_toll_charges (d : ℚ) : ℚ :=
  if d > 20 then 50 else 0

/-- Result dictionary of the cost sub-models: the common keys `total_cost`,
`cost_per_km`, `method`, plus the breakdown entries of each sub-model. -/
structure CostResult where
  total_cost : ℚ
  cost_per_km : ℚ
  method : String
  extra : List (String × ℚ)
deriving DecidableEq, Repr

/-- Embeds `CostCalculator._calculate_car_cost`: fuel (15 km/L at 100 INR/L),
maintenance 3 INR/km, parking, toll, depreciation 2 INR/km. -/
def calculate_car_cost (d durationMin : ℚ) (timeOfDay : Option String) : CostResult :=
  let fuelCost := d / 15 * 100
  let maintenanceCost := d * 3
  let parkingCost := estimate_parking_cost durationMin timeOfDay
  let tollCost := estimate_toll_charges d
  let depreciationCost := d * 2
  let total := fuelCost + maintenanceCost + parkingCost + tollCost + depreciationCost
  { total_cost := total,
    cost_per_km := if d > 0 then total / d else 0,
    method := "detailed_car",
    extra := [("fuel_cost", fuelCost), ("maintenance_cost", maintenanceCost),
              ("parking_cost", parkingCost), ("toll_cost", tollCost),
              ("depreciation_cost", depreciationCost)] }

/-- Embeds `CostCalculator._calculate_metro_cost`: base fare plus per-km fare, capped
at the maximum fare of 60 INR. -/
def calculate_metro_cost (d : ℚ) : CostResult :=
  let fare := METRO_BASE_FARE + d * METRO_PER_KM_FARE
  let fare := min fare 60
  { total_cost := fare,
    cost_per_km := if d > 0 then fare / d else 0,
    method := "metro_fare",
    extra := [("base_fare", METRO_BASE_FARE), ("distance_fare", d * METRO_PER_KM_FARE)] }

/-- Embeds `CostCalculator._calculate_bus_cost`: distance-banded flat fare plus a
10 INR AC surcharge. -/
def calculate_bus_cost (d : ℚ) : CostResult :=
  let fare : ℚ :=
    if d ≤ 2 then 5
    else if d ≤ 4 then 10
    else if d ≤ 6 then 15
    else if d ≤ 10 then 25
    else if d ≤ 15 then 30
    else 35
  let acSurcharge : ℚ := 10
  let totalFare := fare + acSurcharge
  { total_cost := totalFare,
    cost_per_km := if d > 0 then totalFare / d else 0,
    method := "bus_fare",
    extra := [("base_fare", fare), ("ac_surcharge", acSurcharge)] }

/-- Embeds `CostCalculator._calculate_bike_cost`: the cheaper of personal maintenance
(0.5 INR/km) and rental (1 INR/min); the method tag records which was cheaper. -/
def calculate_bike_cost (d durationMin : ℚ) : CostResult :=
  let maintenanceCost := d * 0.5
  let rentalCost := durationMin * 1.0
  let total := min maintenanceCost rentalCost
  { total_cost := total,
    cost_per_km := if d > 0 then total / d else 0,
    method := if rentalCost < maintenanceCost then "bike_rental" else "bike_personal",
    extra := [("maintenance_cost", maintenanceCost), ("rental_cost", rentalCost)] }

/-- Embeds `CostCalculator._calculate_walk_cost`: shoe wear of 0.1 INR/km.  Note that
`cost_per_km` is the flat constant 0.1, not guarded by distance. -/
def calculate_walk_cost (d : ℚ) : CostResult :=
  let shoeWearPerKm : ℚ := 0.1
  let shoeCost := d * shoeWearPerKm
  { total_cost := shoeCost,
    cost_per_km := shoeWearPerKm,
    method := "walking",
    extra := [("shoe_wear_cost", shoeCost)] }

/-- Embeds `CostCalculator.calculate_cost`: dispatch by mode.  The final `else` of the
source is unreachable for the five-member enumeration. -/
def calculate_cost (m : TransportMode) (d durationMin : ℚ) (timeOfDay : Option String) :
    CostResult :=
  match m with
  | .car => calculate_car_cost d durationMin timeOfDay
  | .metro => calculate_metro_cost d
  | .bus => calculate_bus_cost d
  | .bike => calculate_bike_cost d durationMin
  | .walk => calculate_walk_cost d

/-! ## Eco-score engine — `calculators/eco_scorer.py` -/

/-- Eco-score categories of `utils/constants.py` (`EcoScoreCategory`). -/
inductive EcoScoreCategory
  | excellent
  | good
  | moderate
  | poor
  | veryPoor
deriving DecidableEq, Repr

/-- Embeds `ECO_SCORE_COLORS` of `utils/constants.py`. -/
def ecoScoreColor : EcoScoreCategory → String
  | .excellent => "#2E7D32"
  | .good => "#43A047"
  | .moderate => "#FB8C00"
  | .poor => "#E53935"
  | .veryPoor => "#B71C1C"

/-- Embeds `EcoScorer._get_eco_score_category` with the thresholds 80/60/40/20 of
`ECO_SCORE_THRESHOLDS`. -/
def eco_score_category (s : ℚ) : EcoScoreCategory :=
  if 80 ≤ s then .excellent
  else if 60 ≤ s then .good
  else if 40 ≤ s then .moderate
  else if 20 ≤ s then .poor
  else .veryPoor

/-- Embeds `EcoScorer._calculate_co2_score`: banded function of co2 per km, with the
division-by-zero guard returning 0 per-km at distance 0. -/
def co2_component_score (co2Kg d : ℚ) : ℚ :=
  let co2PerKm := if d > 0 then co2Kg / d else 0
  if co2PerKm ≤ 0.02 then 100
  else if co2PerKm ≤ 0.05 then 90
  else if co2PerKm ≤ 0.08 then 75
  else if co2PerKm ≤ 0.12 then 50
  else if co2PerKm ≤ 0.15 then 25
  else 10

/-- Embeds `EcoScorer._calculate_cost_score`: banded function of cost per km. -/
def cost_component_score (costInr d : ℚ) : ℚ :=
  let costPerKm := if d > 0 then costInr / d else 0
  if costPerKm ≤ 1 then 100
  else if costPerKm ≤ 3 then 85
  else if costPerKm ≤ 5 then 70
  else if costPerKm ≤ 10 then 50
  else if costPerKm ≤ 15 then 30
  else 15

/-- Embeds `EcoScorer._calculate_time_score`: banded function of the implied average
speed in km/h. -/
def time_component_score (durationMin d : ℚ) : ℚ :=
  let speedKmh := if durationMin > 0 then d / (durationMin / 60) else 0
  if 15 ≤ speedKmh ∧ speedKmh ≤ 25 then 80
  else if 25 < speedKmh ∧ speedKmh ≤ 40 then 60
  else if speedKmh > 40 then 40
  else if 5 ≤ speedKmh ∧ speedKmh < 15 then 70
  else 90

/-- Per-mode `eco_weight` of `Settings.TRANSPORT_MODES` (`config/settings.py`). -/
def ecoWeight : TransportMode → ℚ
  | .car => 0.3
  | .metro => 0.9
  | .bus => 0.7
  | .bike => 1.0
  | .walk => 1.0

/-- Embeds `EcoScorer._calculate_mode_score`: configured eco-weight times 100. -/
def mode_component_score (m : TransportMode) : ℚ :=
  ecoWeight m * 100

/-- Embeds `EcoScorer._calculate_health_score`. -/
def health_component_score (m : TransportMode) (d : ℚ) : ℚ :=
  match m with
  | .walk => min 100 (d * 20)
  | .bike => min 100 (d * 15)
  | .metro => min 50 (min 2 (d * 0.2) * 20)
  | .bus => min 30 (min 1 (d * 0.1) * 20)
  | .car => 0

/-- Embeds `EcoScorer._calculate_congestion_score` (signed; negative for the active
modes, meaning a congestion reduction). -/
def congestion_component_score (m : TransportMode) (durationMin : ℚ) : ℚ :=
  match m with
  | .car => min 100 (durationMin * 0.5)
  | .bus => min 50 (durationMin * 0.2)
  | .metro => 0
  | _ => -20

/-- The `EcoScoreComponents` dataclass. -/
structure EcoScoreComponents where
  co2_score : ℚ
  cost_score : ℚ
  time_score : ℚ
  mode_score : ℚ
  health_score : ℚ
  congestion_score : ℚ
deriving DecidableEq, Repr

/-- The `details` sub-dictionary of the eco-score result. -/
structure EcoScoreDetails where
  distance_km : ℚ
  duration_min : ℚ
  mode : String
deriving DecidableEq, Repr

/-- Full result dictionary of `EcoScorer.calculate_eco_score`. -/
structure EcoScoreResult where
  score : ℚ
  category : EcoScoreCategory
  color : String
  components : EcoScoreComponents
  co2_kg : ℚ
  cost_inr : ℚ
  equivalents : Equivalents
  health_benefits : HealthBenefits
  details : EcoScoreDetails
deriving DecidableEq, Repr

/-- Embeds `EcoScorer.calculate_eco_score` (`calculators/eco_scorer.py`, lines
33 to 112): weighted composite of the six component scores with the weights of
`Settings.ECO_SCORE_WEIGHTS`, a health bonus only for bike/walk, a congestion
penalty for all modes, clamped to the interval from 0 to 100. -/
def calculate_eco_score (m : TransportMode) (d durationMin : ℚ) : EcoScoreResult :=
  let co2Data := calculate_co2_emissions m d none
  let costData := calculate_cost m d durationMin none
  let co2Score := co2_component_score co2Data.co2_kg d
  let costScore := cost_component_score costData.total_cost d
  let timeScore := time_component_score durationMin d
  let modeScore := mode_component_score m
  let healthScore := health_component_score m d
  let congestionScore := congestion_component_score m durationMin
  let weighted := co2Score * 0.40 + costScore * 0.25 + timeScore * 0.20 + modeScore * 0.15
  let weighted := if m = .bike ∨ m = .walk then weighted + healthScore * 0.1 else weighted
  let weighted := weighted - congestionScore * 0.05
  let finalScore := max 0 (min 100 weighted)
  { score := finalScore,
    category := eco_score_category finalScore,
    color := ecoScoreColor (eco_score_category finalScore),
    components :=
      { co2_score := co2Score, cost_score := costScore, time_score := timeScore,
        mode_score := modeScore, health_score := healthScore,
        congestion_score := congestionScore },
    co2_kg := co2Data.co2_kg,
    cost_inr := costData.total_cost,
    equivalents := calculate_equivalent_impact co2Data.co2_kg,
    health_benefits := calculate_health_benefits m d,
    details := { distance_km := d, duration_min := durationMin, mode := modeValue m } }

/-! ## Application route service — `app.py`

The application file carries its own `Settings`, `RouteService`, and
calculator classes, independent of the `calculators/` package.  Modes are
plain strings there ("car", "metro", "bus", "walking", "bicycle"). -/

/-- Per-mode configuration dictionary of `app.py` `Settings.TRANSPORT_MODES`. -/
structure AppModeConfig where
  name : String
  icon : String
  color : String
  speed_kmh : ℚ
  cost_per_km : ℚ
  co2_per_km : ℚ
deriving DecidableEq, Repr

/-- Embeds `Settings.TRANSPORT_MODES` of `app.py` as a lookup on the mode string. -/
def appTransportModes (mode : String) : Option AppModeConfig :=
  if mode = "car" then
    some { name := "Car", icon := "🚗", color := "#FF0000",
           speed_kmh := 40, cost_per_km := 8, co2_per_km := 0.192 }
  else if mode = "metro" then
    some { name := "Metro", icon := "🚇", color := "#800080",
           speed_kmh := 35, cost_per_km := 2, co2_per_km := 0.035 }
  else if mode = "bus" then
    some { name := "Bus", icon := "🚌", color := "#0000FF",
           speed_kmh := 20, cost_per_km := 1.5, co2_per_km := 0.089 }
  else if mode = "walking" then
    some { name := "Walking", icon := "🚶", color := "#FFA500",
           speed_kmh := 5, cost_per_km := 0, co2_per_km := 0 }
  else if mode = "bicycle" then
    some { name := "Bicycle", icon := "🚴", color := "#00CED1",
           speed_kmh := 15, cost_per_km := 0, co2_per_km := 0 }
  else none

/-- Embeds `Settings.TRANSPORT_MODES.get(mode, Settings.TRANSPORT_MODES["car"])`, the
defaulted lookup used throughout `app.py`. -/
def appModeConfigOrCar (mode : String) : AppModeConfig :=
  (appTransportModes mode).getD
    { name := "Car", icon := "🚗", color := "#FF0000",
      speed_kmh := 40, cost_per_km := 8, co2_per_km := 0.192 }

/-- The `base_scores` dictionary of `RouteService._create_basic_route` in
`app.py` (with default 50). -/
def appBaseScore (mode : String) : ℚ :=
  if mode = "walking" then 95
  else if mode = "bicycle" then 90
  else if mode = "metro" then 85
  else if mode = "bus" then 75
  else if mode = "car" then 40
  else 50

/-- Python `str.capitalize()` for the ASCII mode strings. -/
def pyCapitalize (s : String) : String :=
  match s.toList with
  | [] => ""
  | c :: rest => String.mk (c.toUpper :: rest.map Char.toLower)

/-- Coordinate pair in degrees. -/
structure Coord where
  lat : ℚ
  lon : ℚ
deriving DecidableEq, Repr

/-- Step record of `app.py` `RouteService._create_basic_route`. -/
structure AppStep where
  step : ℕ
  instruction : String
  distance : String
  distance_m : ℚ
  duration : String
  duration_s : ℚ
  mode : String
  start_location : Coord
  end_location : Coord
deriving DecidableEq, Repr

/-- Route dictionary returned by `app.py` `RouteService` (the keys produced by
`_create_basic_route`; the provider path adds the same metric keys). -/
structure AppRoute where
  mode : String
  start_address : String
  end_address : String
  start_location : Coord
  end_location : Coord
  total_distance_km : ℚ
  total_duration_min : ℚ
  cost_inr : ℚ
  co2_emissions_kg : ℚ
  eco_score : ℚ
  polyline : Option String
  decoded_path : List Coord
  steps : List AppStep
  transit_segments : Option (List String)
  warnings : List String
  summary : String
  is_realistic : Bool
deriving DecidableEq, Repr

/-- Embeds `RouteService._create_basic_route` of `app.py` (lines 365 to 430).  The
Haversine great-circle distance (floating-point `sin`/`cos`/`atan2`, Earth
radius 6371 km) is transcendental, so its output is taken as the parameter
`distanceKm`; everything after the `distance_km = 6371 * c` line is embedded
verbatim.  For valid coordinates the Haversine value is a nonnegative real,
so the theorems quantify over all nonnegative `distanceKm`. -/
def appCreateBasicRoute (startCoords endCoords : Coord) (distanceKm : ℚ)
    (mode : String) : AppRoute :=
  let modeConfig := appModeConfigOrCar mode
  let durationMin := distanceKm / modeConfig.speed_kmh * 60
  let co2EmissionsKg := distanceKm * modeConfig.co2_per_km
  let costInr := distanceKm * modeConfig.cost_per_km
  let ecoScore := appBaseScore mode
  { mode := mode,
    start_address := "Location at " ++ decimalString 4 startCoords.lat ++ ", " ++
      decimalString 4 startCoords.lon,
    end_address := "Location at " ++ decimalString 4 endCoords.lat ++ ", " ++
      decimalString 4 endCoords.lon,
    start_location := startCoords,
    end_location := endCoords,
    total_distance_km := roundTo 2 distanceKm,
    total_duration_min := roundTo 1 durationMin,
    cost_inr := roundTo 2 costInr,
    co2_emissions_kg := roundTo 3 co2EmissionsKg,
    eco_score := roundTo 1 ecoScore,
    polyline := none,
    decoded_path := [startCoords, endCoords],
    steps := [{ step := 1,
                instruction := "Travel from start to destination via " ++ mode,
                distance := decimalString 1 distanceKm ++ " km",
                distance_m := distanceKm * 1000,
                duration := decimalString 0 durationMin ++ " min",
                duration_s := durationMin * 60,
                mode := mode,
                start_location := startCoords,
                end_location := endCoords }],
    transit_segments := none,
    warnings := ["Using estimated route (Google Maps API not available)"],
    summary := pyCapitalize mode ++ " Route",
    is_realistic := false }

/-- Embeds `app.py` `RouteService.calculate_route` on the no-client path: when
`self.google_client` is `None` the method immediately returns
`_create_basic_route(start_coords, end_coords, mode)`.  The unused `priority`
argument is kept from the source signature. -/
def appCalculateRouteNoClient (startCoords endCoords : Coord) (distanceKm : ℚ)
    (mode priority : String) : Option AppRoute :=
  let _ := priority
  some (appCreateBasicRoute startCoords endCoords distanceKm mode)

/-- CO2 computation of `app.py` `RouteService._calculate_metrics` (line 299):
`co2_emissions_kg = distance_km * mode_config["co2_per_km"]`, the flat per-km
constant of `Settings.TRANSPORT_MODES` — 0.035 kg/km for metro. -/
def appMetricsCo2 (mode : String) (distanceKm : ℚ) : ℚ :=
  distanceKm * (appModeConfigOrCar mode).co2_per_km

/-- The value `_calculate_metrics` stores on the route:
`round(co2_emissions_kg, 3)`. -/
def appMetricsCo2Stored (mode : String) (distanceKm : ℚ) : ℚ :=
  roundTo 3 (appMetricsCo2 mode distanceKm)

/-! ## Route practicality filter — `utils/route_processor.py` -/

/-- Route segment as inspected by `RouteProcessor`: the `mode` string and the
outcome of `float(segment["distance"].replace(" km", ""))` — `some` when the
parse succeeds, `none` when the `try`/`except` swallows a parse failure. -/
structure RPSegment where
  mode : String
  distanceKm : Option ℚ
deriving DecidableEq, Repr

/-- Route dictionary as inspected by `RouteProcessor`: `duration_min`,
`distance_km`, the optional `actual_mode` key, and the optional `segments`
list. -/
structure PRoute where
  duration_min : ℚ
  distance_km : ℚ
  actual_mode : Option String
  segments : Option (List RPSegment)
deriving DecidableEq, Repr

/-- The three criteria keys read by `_is_practical_route` (the per-preference
weight entries of the `criteria` dictionaries are never read by the filter or
the sort and are omitted). -/
structure RPCriteria where
  max_walk_distance : ℚ
  max_transfers : ℕ
  min_metro_priority : Bool
deriving DecidableEq, Repr

/-- The `criteria` table of `RouteProcessor.get_practical_routes`, with
`criteria.get(preference, criteria["balanced"])` defaulting. -/
def criteriaFor (preference : String) : RPCriteria :=
  if preference = "fastest" then
    { max_walk_distance := 1.0, max_transfers := 2, min_metro_priority := true }
  else if preference = "cheapest" then
    { max_walk_distance := 1.5, max_transfers := 3, min_metro_priority := false }
  else if preference = "greenest" then
    { max_walk_distance := 2.0, max_transfers := 2, min_metro_priority := true }
  else
    { max_walk_distance := 1.2, max_transfers := 2, min_metro_priority := true }

/-- Cumulative walking distance summed by `_is_practical_route` over the
segments whose mode is "walk" (failed parses are skipped). -/
def totalWalkDistance (r : PRoute) : ℚ :=
  match r.segments with
  | none => 0
  | some segs =>
      segs.foldl (fun acc s =>
        if s.mode = "walk" then
          match s.distanceKm with
          | some v => acc + v
          | none => acc
        else acc) 0

/-- Embeds `RouteProcessor._count_transfers`: count mode changes into a transit mode
between consecutive segments, then subtract one for the initial boarding,
floored at 0 (ℕ subtraction). -/
def countTransfers (r : PRoute) : ℕ :=
  match r.segments with
  | none => 0
  | some segs =>
      let go := segs.foldl (fun acc s =>
        let transfers := acc.1
        let prevMode := acc.2
        let transfers :=
          match prevMode with
          | some p =>
              if p ≠ s.mode ∧ (s.mode = "metro" ∨ s.mode = "bus") then transfers + 1
              else transfers
          | none => transfers
        (transfers, some s.mode)) ((0 : ℕ), (none : Option String))
      go.1 - 1

/-- Embeds `RouteProcessor._is_practical_route`: reject on excess walking, reject
metro/bus routes on excess transfers, and under metro-priority retain a bus
route only when its duration is under 30 minutes. -/
def isPracticalRoute (r : PRoute) (c : RPCriteria) : Bool :=
  if totalWalkDistance r > c.max_walk_distance then false
  else if (r.actual_mode = some "metro" ∨ r.actual_mode = some "bus") ∧
      countTransfers r > c.max_transfers then false
  else if c.min_metro_priority ∧ r.actual_mode = some "bus" then
    decide (r.duration_min < 30)
  else true

/-- The `costs_per_km` table of `RouteProcessor._estimate_cost` (default 5). -/
def rpCostPerKm (mode : String) : ℚ :=
  if mode = "driving" then 10
  else if mode = "metro" then 5
  else if mode = "bus" then 2
  else if mode = "bicycling" then 0
  else if mode = "walking" then 0
  else 5

/-- Embeds `RouteProcessor._estimate_cost`: `route.get("actual_mode", "")` missing
keys default to the empty string, which falls to the table default. -/
def estimateCost (r : PRoute) : ℚ :=
  r.distance_km * rpCostPerKm (r.actual_mode.getD "")

/-- The `emissions_per_km` table of `RouteProcessor._estimate_emissions`
(default 0.1). -/
def rpEmissionsPerKm (mode : String) : ℚ :=
  if mode = "driving" then 0.192
  else if mode = "metro" then 0.096
  else if mode = "bus" then 0.089
  else if mode = "bicycling" then 0
  else if mode = "walking" then 0
  else 0.1

/-- Embeds `RouteProcessor._estimate_emissions`. -/
def estimateEmissions (r : PRoute) : ℚ :=
  r.distance_km * rpEmissionsPerKm (r.actual_mode.getD "")

/-- Embeds `RouteProcessor._calculate_balance_score`: weighted combination of inverse
duration, inverse cost, inverse emissions and a convenience factor, weights
0.4/0.3/0.2/0.1. -/
def balanceScore (r : PRoute) : ℚ :=
  let timeScore := 1 / (r.duration_min + 1)
  let costScore := 1 / (estimateCost r + 1)
  let emissionScore := 1 / (estimateEmissions r + 0.1)
  let convenienceScore : ℚ :=
    match r.segments with
    | none => 1
    | some segs =>
        let transfers := countTransfers r
        let walkSegments := (segs.filter (fun s => s.mode = "walk")).length
        1 * (1 / ((transfers : ℚ) + 1)) * (1 / ((walkSegments : ℚ) + 1))
  timeScore * 0.4 + costScore * 0.3 + emissionScore * 0.2 + convenienceScore * 0.1

/-- Sort key applied by `get_practical_routes`: duration for "fastest",
estimated cost for "cheapest", estimated emissions for "greenest", and the
balance score otherwise.  Every branch sorts ascending — `list.sort(key=...)`
is used without `reverse=True` in all four cases. -/
def rpSortKey (preference : String) (r : PRoute) : ℚ :=
  if preference = "fastest" then r.duration_min
  else if preference = "cheapest" then estimateCost r
  else if preference = "greenest" then estimateEmissions r
  else balanceScore r

/-- Embeds `RouteProcessor.get_practical_routes`: drop falsy routes, keep the
practical ones, and stable-sort ascending by the preference key (Python
`list.sort` is stable; `List.insertionSort` with a total `≤` key relation is
its stable counterpart).  The result dictionary preserves this order. -/
def getPracticalRoutes (routes : List (String × Option PRoute)) (preference : String) :
    List (String × PRoute) :=
  let c := criteriaFor preference
  let practical := routes.filterMap (fun p =>
    match p.2 with
    | none => none
    | some r => if isPracticalRoute r c then some (p.1, r) else none)
  practical.insertionSort (fun a b => rpSortKey preference a.2 ≤ rpSortKey preference b.2)

/-! ## Provider-backed path of `api/route_service.py` (C10)

`RouteService._calculate_route_metrics` calls
`self.eco_scorer.calculate_eco_score(mode=..., distance_km=..., duration_min=...,
cost_inr=..., co2_kg=..., priority=...)` while
`EcoScorer.calculate_eco_score(self, mode, distance_km, duration_min,
route_details=None)` accepts no `cost_inr`, `co2_kg` or `priority` keyword.
Python keyword binding is modelled generically: a call raises `TypeError`
unless every supplied keyword is a parameter name of the callee. -/

/-- Python call-time keyword binding check: every keyword of the call must
name a parameter of the callee. -/
def acceptsKwargs (params kwargs : List String) : Bool :=
  kwargs.all (fun k => params.contains k)

/-- Keyword parameter names of `EcoScorer.calculate_eco_score`
(`calculators/eco_scorer.py`, line 33). -/
def ecoScoreParamNames : List String :=
  ["mode", "distance_km", "duration_min", "route_details"]

/-- Keywords supplied by `RouteService._calculate_route_metrics`
(`api/route_service.py`, lines 175 to 182). -/
def metricsCallKwargNames : List String :=
  ["mode", "distance_km", "duration_min", "cost_inr", "co2_kg", "priority"]

/-- Python-level error raised inside the service `try` block. -/
inductive PyError
  | typeError (message : String)
deriving DecidableEq, Repr

/-- Fields of the normalized route summary produced by
`RouteService._extract_route_info` that `_calculate_route_metrics` reads. -/
structure GRouteSummary where
  mode : String
  total_distance_meters : ℚ
  total_duration_seconds : ℚ
  warnings : List String
  summary : String
  is_realistic : Bool
deriving DecidableEq, Repr

/-- Route summary after `_calculate_route_metrics` has attached the computed
metrics. -/
structure GRouteWithMetrics where
  base : GRouteSummary
  total_distance_km : ℚ
  total_duration_min : ℚ
  cost_inr : ℚ
  co2_emissions_kg : ℚ
  eco_score : EcoScoreResult
deriving Repr

/-- Embeds `RouteService._calculate_route_metrics` (`api/route_service.py`, lines 159
to 196): converts units, computes emissions and cost, then calls the eco
scorer with the six keywords above.  The call is modelled through the keyword
binding check; on a binding failure the `TypeError` propagates. -/
def calculateRouteMetrics (rs : GRouteSummary) (m : TransportMode) :
    Except PyError GRouteWithMetrics :=
  let distanceKm := rs.total_distance_meters / 1000
  let durationMin := rs.total_duration_seconds / 60
  let emissions := calculate_co2_emissions m distanceKm none
  let cost := calculate_cost m distanceKm durationMin none
  if acceptsKwargs ecoScoreParamNames metricsCallKwargNames then
    Except.ok
      { base := rs,
        total_distance_km := distanceKm,
        total_duration_min := durationMin,
        cost_inr := cost.total_cost,
        co2_emissions_kg := emissions.co2_kg,
        eco_score := calculate_eco_score m distanceKm durationMin }
  else
    Except.error (PyError.typeError
      "calculate_eco_score() got an unexpected keyword argument")

/-- Provider-backed branch of `RouteService.calculate_route`
(`api/route_service.py`, lines 56 to 91) after the provider returned at least
one direction: extraction (whose outcome, success or raised error, is the
`extraction` argument), then `_calculate_route_metrics`, all inside the
catch-all `except` that converts any error to `None`. -/
def serviceProviderRoute (extraction : Except PyError GRouteSummary)
    (m : TransportMode) : Option GRouteWithMetrics :=
  match extraction with
  | .error _ => none
  | .ok rs =>
      match calculateRouteMetrics rs m with
      | .error _ => none
      | .ok r => some r

/-! ## Helper lemmas -/

/-- Round-half-to-even differs from its argument by at most one half. -/
theorem abs_roundHalfEven_sub_le (q : ℚ) : |(roundHalfEven q : ℚ) - q| ≤ 1/2 := by
  have hf : (⌊q⌋ : ℚ) ≤ q := Int.floor_le q
  have hf2 : q < (⌊q⌋ : ℚ) + 1 := Int.lt_floor_add_one q
  unfold roundHalfEven
  split_ifs with h1 h2 h3 <;> rw [abs_le] <;> push_cast <;> constructor <;> linarith

/-! ## Claims -/

/-- C1: with no provider client configured, `calculate_route` (app.py
`RouteService`) does not raise for any valid coordinate pair and any mode of
the closed enumeration; it returns a route (never `None`) whose
`is_realistic` field is `false` and whose warnings carry the estimated-route
notice.  The nonnegative `havKm` ranges over the possible outputs of the
Haversine distance for valid coordinates. -/
theorem C1_fallback_route_no_provider
    (s e : Coord) (havKm : ℚ) (mode priority : String)
    (hhav : 0 ≤ havKm)
    (hmode : mode ∈ ["car", "metro", "bus", "walking", "bicycle"]) :
    ∃ r : AppRoute, appCalculateRouteNoClient s e havKm mode priority = some r ∧
      r.is_realistic = false ∧
      r.warnings = ["Using estimated route (Google Maps API not available)"] :=
  ⟨appCreateBasicRoute s e havKm mode, rfl, rfl, rfl⟩

/-- Witness for C1 at Bangalore center coordinates, 5 km apart, mode metro. -/
theorem C1_fallback_route_no_provider_witness :
    0 ≤ (5 : ℚ) ∧ "metro" ∈ ["car", "metro", "bus", "walking", "bicycle"] ∧
    ∃ r : AppRoute,
      appCalculateRouteNoClient { lat := 12.9716, lon := 77.5946 }
        { lat := 13.0216, lon := 77.6446 } 5 "metro" "balanced" = some r ∧
      r.is_realistic = false ∧
      r.warnings = ["Using estimated route (Google Maps API not available)"] :=
  ⟨by norm_num, by simp,
    C1_fallback_route_no_provider { lat := 12.9716, lon := 77.5946 }
      { lat := 13.0216, lon := 77.6446 } 5 "metro" "balanced" (by norm_num) (by simp)⟩

/-- C2: the eco-score equals the weighted composite
co2 x 0.40 + cost x 0.25 + time x 0.20 + mode x 0.15, plus health x 0.10 only
for bike/walk, minus congestion x 0.05 for all modes, clamped to the interval
from 0 to 100; consequently the score always lies in that interval. -/
theorem C2_eco_score_weighted_and_bounded
    (m : TransportMode) (d durationMin : ℚ)
    (hd : 0 ≤ d) (hdur : 0 ≤ durationMin) :
    (calculate_eco_score m d durationMin).score =
      max 0 (min 100
        (co2_component_score (calculate_co2_emissions m d none).co2_kg d * 0.40 +
         cost_component_score (calculate_cost m d durationMin none).total_cost d * 0.25 +
         time_component_score durationMin d * 0.20 +
         mode_component_score m * 0.15 +
         (if m = .bike ∨ m = .walk then health_component_score m d * 0.10 else 0) -
         congestion_component_score m durationMin * 0.05)) ∧
    0 ≤ (calculate_eco_score m d durationMin).score ∧
    (calculate_eco_score m d durationMin).score ≤ 100 := by
  refine ⟨?_, ?_, ?_⟩
  · show max 0 (min 100 _) = max 0 (min 100 _)
    congr 1
    congr 1
    split_ifs with h <;> ring
  · exact le_max_left 0 _
  · exact max_le (by norm_num) (min_le_left 100 _)

/-- Witness for C2 at mode car, 10 km, 30 minutes. -/
theorem C2_eco_score_weighted_and_bounded_witness :
    0 ≤ (10 : ℚ) ∧ 0 ≤ (30 : ℚ) ∧
    ((calculate_eco_score .car 10 30).score =
      max 0 (min 100
        (co2_component_score (calculate_co2_emissions .car 10 none).co2_kg 10 * 0.40 +
         cost_component_score (calculate_cost .car 10 30 none).total_cost 10 * 0.25 +
         time_component_score 30 10 * 0.20 +
         mode_component_score .car * 0.15 +
         (if TransportMode.car = .bike ∨ TransportMode.car = .walk then
            health_component_score .car 10 * 0.10 else 0) -
         congestion_component_score .car 30 * 0.05)) ∧
      0 ≤ (calculate_eco_score .car 10 30).score ∧
      (calculate_eco_score .car 10 30).score ≤ 100) :=
  ⟨by norm_num, by norm_num,
    C2_eco_score_weighted_and_bounded .car 10 30 (by norm_num) (by norm_num)⟩

/-- C3 counterexample: the claim states that `cost_per_km` is 0 at distance 0
for every mode, but for walk the code returns the flat shoe-wear constant 0.1
regardless of distance. -/
theorem C3_zero_distance_cost_cex :
    ¬ ((calculate_cost .walk 0 5 none).cost_per_km = 0) := by
  norm_num [calculate_cost, calculate_walk_cost]

/-- C3 (amended): at distance 0 every mode returns normally; `cost_per_km` is
0 for car, metro, bus and bike (the division guard), while walk reports the
flat constant 0.1; the car total still consists exactly of the flat
components — parking at a minimum of one hour (30 INR per started hour at the
default peak rate) and a toll of 0 since the distance is below 20 km. -/
theorem C3_zero_distance_cost (durationMin : ℚ) (hdur : 0 ≤ durationMin) :
    (calculate_cost .car 0 durationMin none).cost_per_km = 0 ∧
    (calculate_cost .metro 0 durationMin none).cost_per_km = 0 ∧
    (calculate_cost .bus 0 durationMin none).cost_per_km = 0 ∧
    (calculate_cost .bike 0 durationMin none).cost_per_km = 0 ∧
    (calculate_cost .walk 0 durationMin none).cost_per_km = 1/10 ∧
    (calculate_cost .car 0 durationMin none).total_cost =
      estimate_parking_cost durationMin none ∧
    estimate_parking_cost durationMin none = ((max 1 ⌈durationMin / 60⌉ : ℤ) : ℚ) * 30 ∧
    estimate_toll_charges 0 = 0 ∧
    30 ≤ (calculate_cost .car 0 durationMin none).total_cost := by
  have htoll : estimate_toll_charges 0 = 0 := by norm_num [estimate_toll_charges]
  have hpark : estimate_parking_cost durationMin none =
      ((max 1 ⌈durationMin / 60⌉ : ℤ) : ℚ) * 30 := by
    simp [estimate_parking_cost]
  have htotal : (calculate_cost .car 0 durationMin none).total_cost =
      estimate_parking_cost durationMin none := by
    simp [calculate_cost, calculate_car_cost, htoll]
  refine ⟨?_, ?_, ?_, ?_, ?_, htotal, hpark, htoll, ?_⟩
  · norm_num [calculate_cost, calculate_car_cost]
  · norm_num [calculate_cost, calculate_metro_cost]
  · norm_num [calculate_cost, calculate_bus_cost]
  · norm_num [calculate_cost, calculate_bike_cost]
  · norm_num [calculate_cost, calculate_walk_cost]
  · rw [htotal, hpark]
    have h1 : (1 : ℤ) ≤ max 1 ⌈durationMin / 60⌉ := le_max_left 1 _
    have h1q : (1 : ℚ) ≤ ((max 1 ⌈durationMin / 60⌉ : ℤ) : ℚ) := by exact_mod_cast h1
    nlinarith

/-- Witness for C3 at 90 minutes: parking rounds up to two started hours. -/
theorem C3_zero_distance_cost_witness :
    0 ≤ (90 : ℚ) ∧
    ((calculate_cost .car 0 90 none).cost_per_km = 0 ∧
     (calculate_cost .metro 0 90 none).cost_per_km = 0 ∧
     (calculate_cost .bus 0 90 none).cost_per_km = 0 ∧
     (calculate_cost .bike 0 90 none).cost_per_km = 0 ∧
     (calculate_cost .walk 0 90 none).cost_per_km = 1/10 ∧
     (calculate_cost .car 0 90 none).total_cost = estimate_parking_cost 90 none ∧
     estimate_parking_cost 90 none = ((max 1 ⌈(90 : ℚ) / 60⌉ : ℤ) : ℚ) * 30 ∧
     estimate_toll_charges 0 = 0 ∧
     30 ≤ (calculate_cost .car 0 90 none).total_cost) :=
  ⟨by norm_num, C3_zero_distance_cost 90 (by norm_num)⟩

/-- First route of the C4 failing input: 10 minutes, 1 km, no `actual_mode`
and no `segments` keys; its balance score is 261/220. -/
def C4routeA : PRoute :=
  { duration_min := 10, distance_km := 1, actual_mode := none, segments := none }

/-- Second route of the C4 failing input: 100 minutes, otherwise identical;
its balance score is 2331/2020, strictly below the score of `C4routeA`. -/
def C4routeB : PRoute :=
  { duration_min := 100, distance_km := 1, actual_mode := none, segments := none }

/-- C4: on the failing input both routes survive the practicality filter
under preference "balanced", `C4routeA` has the strictly larger balance
score, yet `get_practical_routes` returns `C4routeB` first — the sort is
ascending (`list.sort` without `reverse=True`), so the route with the highest
balance score comes last, contradicting the specified descending order. -/
theorem C4_balanced_sort_is_ascending :
    getPracticalRoutes [("carA", some C4routeA), ("carB", some C4routeB)] "balanced" =
      [("carB", C4routeB), ("carA", C4routeA)] ∧
    balanceScore C4routeB < balanceScore C4routeA := by
  have hprA : isPracticalRoute C4routeA (criteriaFor "balanced") = true := by
    simp [isPracticalRoute, criteriaFor, totalWalkDistance, countTransfers, C4routeA]
    norm_num
  have hprB : isPracticalRoute C4routeB (criteriaFor "balanced") = true := by
    simp [isPracticalRoute, criteriaFor, totalWalkDistance, countTransfers, C4routeB]
    norm_num
  have hkA : rpSortKey "balanced" C4routeA = 261/220 := by
    simp [rpSortKey, balanceScore, estimateCost, estimateEmissions, rpCostPerKm,
      rpEmissionsPerKm, C4routeA, countTransfers]
    norm_num
  have hkB : rpSortKey "balanced" C4routeB = 2331/2020 := by
    simp [rpSortKey, balanceScore, estimateCost, estimateEmissions, rpCostPerKm,
      rpEmissionsPerKm, C4routeB, countTransfers]
    norm_num
  have hkey : ¬ (rpSortKey "balanced" C4routeA ≤ rpSortKey "balanced" C4routeB) := by
    rw [hkA, hkB]; norm_num
  constructor
  · unfold getPracticalRoutes
    simp only [List.filterMap_cons, List.filterMap_nil, hprA, hprB, if_true, eq_self_iff_true]
    simp only [List.insertionSort, List.orderedInsert]
    rw [if_neg hkey]
  · have hbA : rpSortKey "balanced" C4routeA = balanceScore C4routeA := by
      simp [rpSortKey]
    have hbB : rpSortKey "balanced" C4routeB = balanceScore C4routeB := by
      simp [rpSortKey]
    rw [← hbA, ← hbB, hkA, hkB]
    norm_num

/-- C5: under every preference with metro priority (which is what
deprioritizes bus-only routes) — fastest, greenest, balanced — a route whose
`actual_mode` is "bus" passes the practicality filter only if its duration is
strictly under 30 minutes.  In particular a 45-minute bus route is excluded
under "fastest" even when its walking distance and transfers are within that
limits of that preference (contrapositive at duration 45). -/
theorem C5_bus_retained_only_under_30
    (preference : String) (r : PRoute)
    (hpref : preference ∈ ["fastest", "greenest", "balanced"])
    (hbus : r.actual_mode = some "bus")
    (hprac : isPracticalRoute r (criteriaFor preference) = true) :
    r.duration_min < 30 := by
  have hmin : (criteriaFor preference).min_metro_priority = true := by
    simp only [List.mem_cons, List.mem_singleton, List.not_mem_nil, or_false] at hpref
    rcases hpref with rfl | rfl | rfl <;> rfl
  simp only [isPracticalRoute, hbus, hmin] at hprac
  split_ifs at hprac <;> simp_all

/-- Concrete practical bus route for the C5 witness: 20 minutes, within all
limits. -/
def C5shortBus : PRoute :=
  { duration_min := 20, distance_km := 5, actual_mode := some "bus", segments := none }

/-- Witness for C5: a 20-minute bus route under "fastest" is practical, and
the theorem yields its duration bound. -/
theorem C5_bus_retained_only_under_30_witness :
    "fastest" ∈ ["fastest", "greenest", "balanced"] ∧
    C5shortBus.actual_mode = some "bus" ∧
    isPracticalRoute C5shortBus (criteriaFor "fastest") = true ∧
    C5shortBus.duration_min < 30 :=
  ⟨by simp, rfl,
    by norm_num [isPracticalRoute, C5shortBus, criteriaFor, totalWalkDistance, countTransfers],
    C5_bus_retained_only_under_30 "fastest" C5shortBus (by simp) rfl
      (by norm_num [isPracticalRoute, C5shortBus, criteriaFor, totalWalkDistance,
        countTransfers])⟩

/-- C6: for every distance the metro total cost is
min(base fare 10 + distance x per-km fare 2.5, maximum fare 60); in
particular 10 km gives 35 (uncapped) and 25 km gives 60 (capped). -/
theorem C6_metro_fare_capped :
    (∀ d durationMin : ℚ,
      (calculate_cost .metro d durationMin none).total_cost = min (10 + d * 2.5) 60) ∧
    (calculate_cost .metro 10 0 none).total_cost = 35 ∧
    (calculate_cost .metro 25 0 none).total_cost = 60 := by
  refine ⟨fun d t => ?_, ?_, ?_⟩
  · simp [calculate_cost, calculate_metro_cost, METRO_BASE_FARE, METRO_PER_KM_FARE]
  · norm_num [calculate_cost, calculate_metro_cost, METRO_BASE_FARE, METRO_PER_KM_FARE, min_def]
  · norm_num [calculate_cost, calculate_metro_cost, METRO_BASE_FARE, METRO_PER_KM_FARE, min_def]

/-- C7: the two metro-emission code paths disagree at every positive
distance: the metric path of `app.py` computes the flat 0.035 kg/km constant
(both before and after the `round(..., 3)` applied when storing it), while
`EmissionCalculator._calculate_metro_emissions` derives
0.15 kWh/km x 0.82 kg/kWh = 0.123 kg/km. -/
theorem C7_metro_emission_paths_inconsistent (d : ℚ) (hd : 0 < d) :
    appMetricsCo2 "metro" d ≠ (calculate_co2_emissions .metro d none).co2_kg ∧
    appMetricsCo2Stored "metro" d ≠ (calculate_co2_emissions .metro d none).co2_kg := by
  have happ : appMetricsCo2 "metro" d = d * (7/200) := by
    simp [appMetricsCo2, appModeConfigOrCar, appTransportModes]
    norm_num
  have hcalc : (calculate_co2_emissions .metro d none).co2_kg = d * (123/1000) := by
    simp [calculate_co2_emissions, calculate_metro_emissions, factors]
    ring
  constructor
  · rw [happ, hcalc]
    intro h
    nlinarith
  · unfold appMetricsCo2Stored
    rw [happ, hcalc]
    intro h
    unfold roundTo at h
    have harg : d * (7/200) * (10:ℚ)^3 = 35 * d := by ring
    rw [harg] at h
    set n := roundHalfEven (35 * d) with hn
    have hn123 : (n : ℚ) = 123 * d := by
      have h10 : ((10:ℚ)^3) = 1000 := by norm_num
      rw [h10] at h
      field_simp at h
      linarith
    have habs := abs_roundHalfEven_sub_le (35 * d)
    rw [← hn, hn123] at habs
    have h88 : |(88:ℚ) * d| ≤ 1/2 := by
      have heq : (123:ℚ) * d - 35 * d = 88 * d := by ring
      rwa [heq] at habs
    have h88le : (88:ℚ) * d ≤ 1/2 := (abs_le.mp h88).2
    have hnpos : (0:ℤ) < n := by
      have : (0:ℚ) < (n:ℚ) := by rw [hn123]; positivity
      exact_mod_cast this
    have hn1 : (1:ℤ) ≤ n := by omega
    have h1q : (1:ℚ) ≤ (n:ℚ) := by exact_mod_cast hn1
    rw [hn123] at h1q
    linarith

/-- Witness for C7 at 10 km: 0.35 (and its 3-decimal rounding 0.35) against
1.23. -/
theorem C7_metro_emission_paths_inconsistent_witness :
    (0:ℚ) < 10 ∧
    (appMetricsCo2 "metro" 10 ≠ (calculate_co2_emissions .metro 10 none).co2_kg ∧
     appMetricsCo2Stored "metro" 10 ≠ (calculate_co2_emissions .metro 10 none).co2_kg) :=
  ⟨by norm_num, C7_metro_emission_paths_inconsistent 10 (by norm_num)⟩

/-- C8: for every mode (and every car fuel subtype) and fixed duration, both
the CO2 emissions and the trip cost are monotone non-decreasing in the
distance. -/
theorem C8_monotone_in_distance
    (m : TransportMode) (vehicleType : Option String) (durationMin d1 d2 : ℚ)
    (h0 : 0 ≤ d1) (h12 : d1 ≤ d2) :
    (calculate_co2_emissions m d1 vehicleType).co2_kg ≤
      (calculate_co2_emissions m d2 vehicleType).co2_kg ∧
    (calculate_cost m d1 durationMin none).total_cost ≤
      (calculate_cost m d2 durationMin none).total_cost := by
  constructor
  · cases m with
    | car =>
        simp only [calculate_co2_emissions, calculate_car_emissions, factors]
        split_ifs <;> norm_num <;> linarith
    | metro =>
        simp only [calculate_co2_emissions, calculate_metro_emissions, factors]
        norm_num
        linarith
    | bus =>
        simp only [calculate_co2_emissions, calculate_bus_emissions, factors]
        norm_num
        linarith
    | bike =>
        simp only [calculate_co2_emissions, calculate_bike_emissions]
        norm_num
        linarith
    | walk =>
        simp only [calculate_co2_emissions, calculate_walk_emissions]
        norm_num
        linarith
  · cases m with
    | car =>
        simp only [calculate_cost, calculate_car_cost, estimate_toll_charges]
        split_ifs <;> norm_num <;> linarith
    | metro =>
        simp only [calculate_cost, calculate_metro_cost, METRO_BASE_FARE, METRO_PER_KM_FARE]
        exact min_le_min (by linarith) le_rfl
    | bus =>
        simp only [calculate_cost, calculate_bus_cost]
        split_ifs <;> norm_num <;> linarith
    | bike =>
        simp only [calculate_cost, calculate_bike_cost]
        exact min_le_min (by linarith) le_rfl
    | walk =>
        simp only [calculate_cost, calculate_walk_cost]
        linarith

/-- Witness for C8: car at 10 km versus 20 km with 30 minutes duration. -/
theorem C8_monotone_in_distance_witness :
    0 ≤ (10:ℚ) ∧ (10:ℚ) ≤ 20 ∧
    ((calculate_co2_emissions .car 10 none).co2_kg ≤
       (calculate_co2_emissions .car 20 none).co2_kg ∧
     (calculate_cost .car 10 30 none).total_cost ≤
       (calculate_cost .car 20 30 none).total_cost) :=
  ⟨by norm_num, by norm_num,
    C8_monotone_in_distance .car none 30 10 20 (by norm_num) (by norm_num)⟩

/-- C9: the eco-score engine is deterministic — two calls with equal mode,
distance and duration return equal full results (score, category, color,
components, co2, cost, equivalents, health benefits and details).  The
embedding is a pure function of its three inputs: every quantity of the
source computation is derived from them with no hidden state. -/
theorem C9_eco_score_deterministic
    (m1 m2 : TransportMode) (d1 d2 t1 t2 : ℚ)
    (hm : m1 = m2) (hd : d1 = d2) (ht : t1 = t2) :
    calculate_eco_score m1 d1 t1 = calculate_eco_score m2 d2 t2 := by
  subst hm
  subst hd
  subst ht
  rfl

/-- Witness for C9 at mode car, 10 km, 30 minutes. -/
theorem C9_eco_score_deterministic_witness :
    TransportMode.car = TransportMode.car ∧ (10:ℚ) = 10 ∧ (30:ℚ) = 30 ∧
    calculate_eco_score .car 10 30 = calculate_eco_score .car 10 30 :=
  ⟨rfl, rfl, rfl, C9_eco_score_deterministic .car .car 10 10 30 30 rfl rfl rfl⟩

/-- C10: whenever a provider client is configured and the provider returns at
least one direction, `calculate_route` of `api/route_service.py` returns
`None`: the keyword binding of the `calculate_eco_score` call in
`_calculate_route_metrics` fails (`cost_inr`, `co2_kg` and `priority` are not
parameters of the eco scorer), and the catch-all handler converts the
`TypeError` to `None` — for every extraction outcome and every mode. -/
theorem C10_provider_path_returns_none
    (extraction : Except PyError GRouteSummary) (m : TransportMode) :
    serviceProviderRoute extraction m = none ∧
    acceptsKwargs ecoScoreParamNames metricsCallKwargNames = false := by
  have hkw : acceptsKwargs ecoScoreParamNames metricsCallKwargNames = false := by decide
  refine ⟨?_, hkw⟩
  cases extraction with
  | error e => rfl
  | ok rs => simp [serviceProviderRoute, calculateRouteMetrics, hkw]

end EcoRoute
